import Mathlib

/-!
Verification of the session-aware API client and resource-payload helpers of the
daasom-frontend repository.  Definitions are shallow embeddings of the TypeScript
source under `src/`; theorems settle the specification claims about them.
-/

/-! ## String utilities (JS semantics) -/

/-- Character-list version of "is a list a leading segment of another". -/
def isPrefixList : List Char → List Char → Bool
  | [], _ => true
  | _ :: _, [] => false
  | a :: as, b :: bs => a == b && isPrefixList as bs

/-- Embeds JavaScript `s.includes(needle)`: the needle occurs contiguously in `s`. -/
def strIncludes (s needle : String) : Bool :=
  (s.data.tails).any (fun t => isPrefixList needle.data t)

/-- Embeds JavaScript `s.toLowerCase()` (ASCII range, which is all the source
compares against). -/
def strToLower (s : String) : String :=
  String.mk (s.data.map Char.toLower)

/-- Embeds JavaScript `s.trim()`: strip leading and trailing whitespace. -/
def strTrim (s : String) : String :=
  String.mk (((s.data.dropWhile Char.isWhitespace).reverse.dropWhile
    Char.isWhitespace).reverse)

/-! ## JS value model for response bodies -/

/-- A JavaScript value as consulted by the interceptors and list helpers:
primitives, arrays and plain objects (association lists of own properties). -/
inductive JsVal where
  | null
  | undefined
  | str (s : String)
  | num (q : Rat)
  | bool (b : Bool)
  | arr (xs : List JsVal)
  | obj (fs : List (String × JsVal))

/-- JS truthiness of a value (`data && ...`); finite numbers only, `0` is falsy. -/
def jsTruthy : JsVal → Bool
  | .null => false
  | .undefined => false
  | .str s => !(s == "")
  | .num q => !(q == 0)
  | .bool b => b
  | .arr _ => true
  | .obj _ => true

/-- Whether `typeof v === "object"` holds in JS (`null`, arrays and objects). -/
def isTypeofObject : JsVal → Bool
  | .null => true
  | .arr _ => true
  | .obj _ => true
  | _ => false

/-- Embeds JS property access `v?.k` as used on response data: own property of a
plain object, `undefined` for anything else (the `?.` guard covers null/undefined). -/
def getProp (v : JsVal) (k : String) : JsVal :=
  match v with
  | .obj fs => (List.lookup k fs).getD .undefined
  | _ => .undefined

/-- Embeds `Array.isArray(v)`. -/
def isArray : JsVal → Bool
  | .arr _ => true
  | _ => false

/-! ## http.ts: module state, interceptors (src/src/api/http.ts) -/

/-- Client-visible state touched by the interceptors: the two localStorage keys
(`daasom_access_token`, `daasom_refresh_token`), the current
`window.location.pathname`, and the record of navigations performed by
`window.location.replace`. -/
structure ClientState where
  access : Option String
  refresh : Option String
  path : String
  navigations : List String

/-- Embeds `clearAuthAndRedirect` (http.ts lines 14-22): remove both tokens, then
hard-navigate to "/login" unless already there. -/
def clearAuthAndRedirect (s : ClientState) : ClientState :=
  let s1 : ClientState := { s with access := none, refresh := none }
  if s1.path ≠ "/login" then { s1 with navigations := s1.navigations ++ ["/login"] }
  else s1

/-- An axios error's `response` field: HTTP status and parsed body, absent for
network-level failures where no response was received. -/
structure ErrResponse where
  status : Nat
  data : JsVal

/-- An error reaching the response interceptor. -/
structure HttpError where
  response : Option ErrResponse

/-- `error?.response?.status`. -/
def errStatus (e : HttpError) : Option Nat :=
  e.response.map ErrResponse.status

/-- `error?.response?.data` (`undefined` when no response was received). -/
def errData (e : HttpError) : JsVal :=
  match e.response with
  | some r => r.data
  | none => .undefined

/-- `code === "token_not_valid"`: strict equality against the string literal. -/
def isTokenNotValidCode : JsVal → Bool
  | .str s => s == "token_not_valid"
  | _ => false

/-- `typeof data?.detail === "string" ? data.detail : ""` (http.ts line 50). -/
def errDetailStr (data : JsVal) : String :=
  match getProp data "detail" with
  | .str s => s
  | _ => ""

/-- Embeds `looksLikeInvalidToken` (http.ts lines 51-54). -/
def looksLikeInvalidToken (data : JsVal) : Bool :=
  isTokenNotValidCode (getProp data "code")
  || strIncludes (strToLower (errDetailStr data)) "token not valid"
  || strIncludes (strToLower (errDetailStr data)) "not valid for any token type"

/-- Embeds the response-error interceptor (http.ts lines 41-62): on a 401 whose
body looks like an invalid token, clear auth and redirect; in every case the
original error is re-raised (`Promise.reject(error)`), returned here as the
second component. -/
def responseErrorInterceptor (error : HttpError) (st : ClientState) :
    ClientState × HttpError :=
  let status := errStatus error
  let data := errData error
  let st1 := if status == some 401 && looksLikeInvalidToken data then
    clearAuthAndRedirect st else st
  (st1, error)

/-- JS truthiness of `localStorage.getItem` / env-var results (string or absent):
both absence and the empty string are falsy. -/
def strTruthy : Option String → Bool
  | some s => !(s == "")
  | none => false

/-- Request headers as a partial map from header name to value. -/
def Headers := String → Option String

/-- The empty header object `{}`. -/
def emptyHeaders : Headers := fun _ => none

/-- JS property assignment `headers[k] = v` on a header object. -/
def setHeader (hs : Headers) (k v : String) : Headers :=
  fun k' => if k' == k then some v else hs k'

/-- An outbound request config as seen by the request interceptor: its headers
object, possibly absent (`config.headers ?? {}`). -/
structure RequestConfig where
  headers : Option Headers

/-- Embeds the request interceptor (http.ts lines 29-39): read the stored access
token; when it is truthy (`if (token)` — absent and `""` are both falsy), ensure
a headers object exists and set `Authorization: Bearer <token>`. -/
def requestInterceptor (token? : Option String) (config : RequestConfig) :
    RequestConfig :=
  match token? with
  | some token =>
      if token = "" then config
      else { config with
              headers := some (setHeader (config.headers.getD emptyHeaders)
                "Authorization" ("Bearer " ++ token)) }
  | none => config

/-- Embeds `rawBaseURL.replace(/\/+$/, "")` (http.ts line 9): strip every
trailing "/" character. -/
def stripTrailingSlashes (s : String) : String :=
  String.mk ((s.data.reverse.dropWhile (fun c => c == '/')).reverse)

/-- Embeds module initialization of http.ts lines 3-9: the configured base URL is
a string or absent; a falsy value (`if (!rawBaseURL)`) throws the descriptive
error before the client is constructed, otherwise the client is created with the
trailing-slash-stripped base URL. -/
def initHttp (rawBaseURL : Option String) : Except String String :=
  if !(strTruthy rawBaseURL) then
    .error "VITE_API_BASE_URL is missing. Check .env and restart the dev server."
  else
    .ok (stripTrailingSlashes (rawBaseURL.getD ""))

/-! ## Helper lemmas -/

theorem clearAuth_access (s : ClientState) : (clearAuthAndRedirect s).access = none := by
  unfold clearAuthAndRedirect
  by_cases h : s.path = "/login" <;> simp [h]

theorem clearAuth_refresh (s : ClientState) : (clearAuthAndRedirect s).refresh = none := by
  unfold clearAuthAndRedirect
  by_cases h : s.path = "/login" <;> simp [h]

theorem clearAuth_navigations (s : ClientState) :
    (clearAuthAndRedirect s).navigations =
      if s.path = "/login" then s.navigations else s.navigations ++ ["/login"] := by
  unfold clearAuthAndRedirect
  by_cases h : s.path = "/login" <;> simp [h]

/-! ## Claims about the HTTP client -/

/-- C1: for every HTTP error response handled by the response interceptor, if the
status is 401 and the body indicates the token is invalid (its `code` equals the
`"token_not_valid"` sentinel, or its detail string contains "token not valid" in
any letter case), both the stored access token and refresh token are removed. -/
theorem C1_token_invalid_clears_both_tokens (e : HttpError) (s : ClientState)
    (h1 : errStatus e = some 401)
    (h2 : getProp (errData e) "code" = JsVal.str "token_not_valid"
        ∨ strIncludes (strToLower (errDetailStr (errData e))) "token not valid" = true) :
    (responseErrorInterceptor e s).1.access = none
    ∧ (responseErrorInterceptor e s).1.refresh = none := by
  have hl : looksLikeInvalidToken (errData e) = true := by
    rcases h2 with h2 | h2
    · simp [looksLikeInvalidToken, isTokenNotValidCode, h2]
    · simp [looksLikeInvalidToken, h2]
  exact ⟨by simp [responseErrorInterceptor, h1, hl, clearAuth_access],
         by simp [responseErrorInterceptor, h1, hl, clearAuth_refresh]⟩

theorem C1_witness :
    (responseErrorInterceptor
        ⟨some ⟨401, JsVal.obj [("code", JsVal.str "token_not_valid")]⟩⟩
        ⟨some "acc", some "ref", "/clients", []⟩).1.access = none
    ∧ (responseErrorInterceptor
        ⟨some ⟨401, JsVal.obj [("code", JsVal.str "token_not_valid")]⟩⟩
        ⟨some "acc", some "ref", "/clients", []⟩).1.refresh = none :=
  C1_token_invalid_clears_both_tokens _ _ rfl (Or.inl rfl)

/-- C3: for every detected token-invalidity failure, if the current path is not
"/login" exactly one navigation to "/login" is performed; if the current path is
already "/login", no navigation occurs. -/
theorem C3_login_redirect_exactly_once (e : HttpError) (s : ClientState)
    (h1 : errStatus e = some 401)
    (h2 : looksLikeInvalidToken (errData e) = true) :
    (responseErrorInterceptor e s).1.navigations =
      if s.path = "/login" then s.navigations else s.navigations ++ ["/login"] := by
  simp [responseErrorInterceptor, h1, h2, clearAuth_navigations]

theorem C3_witness :
    (responseErrorInterceptor
        ⟨some ⟨401, JsVal.obj [("detail",
          JsVal.str "Given token not valid for any token type")]⟩⟩
        ⟨none, none, "/tracker", []⟩).1.navigations = ["/login"] := by
  have h := C3_login_redirect_exactly_once
    ⟨some ⟨401, JsVal.obj [("detail",
      JsVal.str "Given token not valid for any token type")]⟩⟩
    ⟨none, none, "/tracker", []⟩ rfl rfl
  simpa using h

/-- C4: a 401 whose body does not indicate token invalidity (code differs from
the sentinel and the detail contains neither invalidity substring) leaves the
stored tokens unchanged and triggers no navigation; the whole client state is
untouched and the error is re-raised. -/
theorem C4_non_token_401_changes_nothing (e : HttpError) (s : ClientState)
    (_h0 : errStatus e = some 401)
    (h1 : isTokenNotValidCode (getProp (errData e) "code") = false)
    (h2 : strIncludes (strToLower (errDetailStr (errData e))) "token not valid" = false)
    (h3 : strIncludes (strToLower (errDetailStr (errData e)))
        "not valid for any token type" = false) :
    responseErrorInterceptor e s = (s, e) := by
  have hl : looksLikeInvalidToken (errData e) = false := by
    simp [looksLikeInvalidToken, h1, h2, h3]
  simp [responseErrorInterceptor, hl]

theorem C4_witness :
    responseErrorInterceptor
        ⟨some ⟨401, JsVal.obj [("code", JsVal.str "authentication_failed"),
          ("detail", JsVal.str "Incorrect password")]⟩⟩
        ⟨some "acc", some "ref", "/home", []⟩
      = (⟨some "acc", some "ref", "/home", []⟩,
         ⟨some ⟨401, JsVal.obj [("code", JsVal.str "authentication_failed"),
           ("detail", JsVal.str "Incorrect password")]⟩⟩) :=
  C4_non_token_401_changes_nothing _ _ rfl rfl rfl rfl

/-- C5: for every error handled by the response interceptor — including those
that trigger session teardown and redirect — the original error is re-raised to
the caller unmodified; no error is ever swallowed. -/
theorem C5_error_always_reraised (e : HttpError) (s : ClientState) :
    (responseErrorInterceptor e s).2 = e := rfl

/-- C6: a network-level failure (no response received, hence no status) clears no
tokens, performs no navigation, and passes the error through unmodified. -/
theorem C6_network_failure_passthrough (e : HttpError) (s : ClientState)
    (h : e.response = none) :
    responseErrorInterceptor e s = (s, e) := by
  have hs : errStatus e = none := by simp [errStatus, h]
  simp [responseErrorInterceptor, hs]

theorem C6_witness :
    responseErrorInterceptor ⟨none⟩ ⟨some "acc", some "ref", "/jobs", []⟩
      = (⟨some "acc", some "ref", "/jobs", []⟩, ⟨none⟩) :=
  C6_network_failure_passthrough _ _ rfl

/-- C2 counterexample: an access token CAN be stored as the empty string, and
then the request interceptor attaches no `Authorization` header at all (JS
`if (token)` is false for `""`), contradicting "if an access token T is stored,
the request carries `Authorization: Bearer T`". -/
theorem C2_counterexample_empty_token :
    ((requestInterceptor (some "") ⟨some emptyHeaders⟩).headers.getD emptyHeaders)
        "Authorization" ≠ some ("Bearer " ++ "") := by
  simp [requestInterceptor, emptyHeaders]

/-- C2 (amended): if a NON-EMPTY access token T is stored at dispatch time, the
request carries `Authorization: Bearer T`; if no token is stored, or the stored
token is the empty string, a request that had no `Authorization` header still
carries none. -/
theorem C2_amended_bearer_header (token? : Option String) (config : RequestConfig)
    (h : (config.headers.getD emptyHeaders) "Authorization" = none) :
    ((requestInterceptor token? config).headers.getD emptyHeaders) "Authorization"
      = match token? with
        | some t => if t = "" then none else some ("Bearer " ++ t)
        | none => none := by
  match token? with
  | none => simpa [requestInterceptor] using h
  | some t =>
      by_cases ht : t = "" <;> simp [requestInterceptor, ht, setHeader, h]

theorem C2_amended_witness :
    ((requestInterceptor (some "abc123") ⟨some emptyHeaders⟩).headers.getD emptyHeaders)
      "Authorization" = some ("Bearer " ++ "abc123") := by
  have h := C2_amended_bearer_header (some "abc123") ⟨some emptyHeaders⟩ rfl
  simpa using h

/-- C7 counterexample: a PRESENT but empty base-URL configuration value also
throws the startup error (JS `if (!rawBaseURL)` is true for `""`), contradicting
"if it is present, no such error is thrown". -/
theorem C7_counterexample_empty_base_url :
    initHttp (some "")
      = Except.error "VITE_API_BASE_URL is missing. Check .env and restart the dev server." :=
  rfl

/-- C7 (amended): if the base-URL configuration value is absent OR empty at
module initialization, the client throws the descriptive startup error before
any request can be dispatched; if it is present and non-empty, no error is
thrown and the client is constructed. -/
theorem C7_amended_fail_fast (raw : Option String) :
    ((raw = none ∨ raw = some "") →
        initHttp raw
          = Except.error "VITE_API_BASE_URL is missing. Check .env and restart the dev server.")
    ∧ (∀ s, raw = some s → s ≠ "" →
        initHttp raw = Except.ok (stripTrailingSlashes s)) := by
  constructor
  · rintro (rfl | rfl) <;> rfl
  · rintro s rfl hs
    have hb : (s == "") = false := beq_eq_false_iff_ne.mpr hs
    simp [initHttp, strTruthy, hb]

theorem C7_amended_witness :
    initHttp none
      = Except.error "VITE_API_BASE_URL is missing. Check .env and restart the dev server." :=
  (C7_amended_fail_fast none).1 (Or.inl rfl)

/-! ## C10: the effective base URL -/

/-- Whether a string ends with the "/" character. -/
def endsInSlash (s : String) : Bool :=
  s.data.getLast? == some '/'

theorem head?_dropWhileSlash (l : List Char) (a : Char)
    (h : (l.dropWhile (fun c => c == '/')).head? = some a) : (a == '/') = false := by
  induction l with
  | nil => simp [List.dropWhile] at h
  | cons c t ih =>
      rw [List.dropWhile_cons] at h
      by_cases hc : (c == '/') = true
      · rw [if_pos hc] at h
        exact ih h
      · rw [if_neg hc] at h
        simp only [List.head?_cons, Option.some.injEq] at h
        subst h
        exact Bool.eq_false_iff.mpr hc

theorem dropWhileSlash_replicate (n : Nat) (l : List Char) :
    (List.replicate n '/' ++ l).dropWhile (fun c => c == '/')
      = l.dropWhile (fun c => c == '/') := by
  induction n with
  | zero => simp
  | succ n ih => simp [List.replicate_succ, List.dropWhile_cons, ih]

/-- C10: the effective base URL is the configured value with every trailing "/"
stripped, so it never ends with "/", and configured values differing only in
trailing slashes yield the same effective base URL. -/
theorem C10_base_url_normalization (s : String) (n : Nat) :
    endsInSlash (stripTrailingSlashes s) = false
    ∧ stripTrailingSlashes (s ++ String.mk (List.replicate n '/'))
        = stripTrailingSlashes s := by
  constructor
  · unfold endsInSlash stripTrailingSlashes
    rw [show (String.mk ((s.data.reverse.dropWhile (fun c => c == '/')).reverse)).data
        = (s.data.reverse.dropWhile (fun c => c == '/')).reverse from rfl]
    rw [List.getLast?_reverse]
    cases hh : (s.data.reverse.dropWhile (fun c => c == '/')).head? with
    | none => rfl
    | some a =>
        have ha := head?_dropWhileSlash _ a hh
        simpa using ha
  · unfold stripTrailingSlashes
    rw [show (s ++ String.mk (List.replicate n '/')).data
        = s.data ++ List.replicate n '/' from rfl]
    rw [List.reverse_append, List.reverse_replicate, dropWhileSlash_replicate]

/-! ## C8: pagination unwrapping in the list functions -/

/-- Embeds `isPaginated` (duplicated verbatim in jobs.ts, clients.ts, ledger.ts
and the invoice/receipt/milestone/addon modules):
`data && typeof data === "object" && Array.isArray(data.results)`. -/
def isPaginated (data : JsVal) : Bool :=
  jsTruthy data && isTypeofObject data && isArray (getProp data "results")

/-- The shared body of every list function: return `data.results` when the
response body is a paginated envelope, otherwise the body itself. -/
def unwrapListResponse (data : JsVal) : JsVal :=
  if isPaginated data then getProp data "results" else data

/-- `listJobs` (jobs.ts lines 103-108) as the transformation it applies to the
response body (the HTTP round trip itself is outside the model). -/
def listJobs (data : JsVal) : JsVal := unwrapListResponse data

/-- `listClients` (clients.ts lines 58-63). -/
def listClients (data : JsVal) : JsVal := unwrapListResponse data

/-- `listInvoices` (invoices module, src/unnamed/part_000 lines 121-125). -/
def listInvoices (data : JsVal) : JsVal := unwrapListResponse data

/-- `listLedger` (ledger.ts lines 36-43). -/
def listLedger (data : JsVal) : JsVal := unwrapListResponse data

/-- `listReceipts` (receipts module, src/unnamed/part_002 lines 45-49). -/
def listReceipts (data : JsVal) : JsVal := unwrapListResponse data

/-- C8: every list function returns exactly the `results` field when the
response body is an object whose `results` field is an array, and the response
body itself unchanged otherwise; all list functions share this behavior. -/
theorem C8_list_functions_unwrap_results (data : JsVal) :
    ((∃ fs, data = JsVal.obj fs) ∧ isArray (getProp data "results") = true →
        listJobs data = getProp data "results")
    ∧ (¬((∃ fs, data = JsVal.obj fs) ∧ isArray (getProp data "results") = true) →
        listJobs data = data)
    ∧ listClients data = listJobs data
    ∧ listInvoices data = listJobs data
    ∧ listLedger data = listJobs data
    ∧ listReceipts data = listJobs data := by
  refine ⟨?_, ?_, rfl, rfl, rfl, rfl⟩
  · rintro ⟨⟨fs, rfl⟩, ha⟩
    simp [listJobs, unwrapListResponse, isPaginated, jsTruthy, isTypeofObject, ha]
  · intro h
    have hp : isPaginated data = false := by
      cases data with
      | obj fs =>
          by_cases ha : isArray (getProp (JsVal.obj fs) "results") = true
          · exact absurd ⟨⟨fs, rfl⟩, ha⟩ h
          · have hb := Bool.eq_false_iff.mpr ha
            simp [isPaginated, jsTruthy, isTypeofObject, hb]
      | null => rfl
      | undefined => rfl
      | str s => simp [isPaginated, isTypeofObject]
      | num q => simp [isPaginated, isTypeofObject]
      | bool b => simp [isPaginated, isTypeofObject]
      | arr xs => simp [isPaginated, getProp, isArray]
    simp [listJobs, unwrapListResponse, hp]

theorem C8_witness :
    listJobs (JsVal.obj [("count", JsVal.num 1), ("next", JsVal.null),
        ("previous", JsVal.null), ("results", JsVal.arr [JsVal.str "job1"])])
      = JsVal.arr [JsVal.str "job1"] := by
  have h := (C8_list_functions_unwrap_results
    (JsVal.obj [("count", JsVal.num 1), ("next", JsVal.null),
      ("previous", JsVal.null), ("results", JsVal.arr [JsVal.str "job1"])])).1
    ⟨⟨_, rfl⟩, rfl⟩
  exact h.trans rfl

/-! ## jobs.ts: payload builder (src/src/api/jobs.ts lines 46-101) -/

/-- A primitive JS value as supplied for a single job-form field at runtime
(`Partial<Job>` property values); an absent or `undefined` property is modelled
by `Option.none` around this type, matching the `!== undefined` guards.
`num` carries a finite JS number. -/
inductive JsPrim where
  | undefined
  | null
  | str (s : String)
  | num (q : Rat)
  | bool (b : Bool)

/-- Numeric value of a digit list (most significant digit first). -/
def digitsVal (cs : List Char) : Nat :=
  cs.foldl (fun a c => a * 10 + (c.toNat - 48)) 0

/-- Parse an optional exponent suffix (`e`/`E`, optional sign, digits) following
a decimal mantissa; `none` when the remaining characters are not such a suffix. -/
def parseExp (base : Rat) : List Char → Option Rat
  | [] => some base
  | c :: rest =>
    if c == 'e' || c == 'E' then
      let signAndRest : Bool × List Char :=
        match rest with
        | '+' :: r => (true, r)
        | '-' :: r => (false, r)
        | r => (true, r)
      let ds := signAndRest.2.takeWhile Char.isDigit
      let rest3 := signAndRest.2.dropWhile Char.isDigit
      if ds.isEmpty || !rest3.isEmpty then none
      else some (if signAndRest.1 then base * (10 : Rat) ^ digitsVal ds
                 else base / (10 : Rat) ^ digitsVal ds)
    else none

/-- Parse the body of a decimal numeric literal (after the optional sign):
`digits`, `digits.digits?`, `.digits`, each with an optional exponent suffix. -/
def parseDec (cs : List Char) : Option Rat :=
  let intPart := cs.takeWhile Char.isDigit
  let rest := cs.dropWhile Char.isDigit
  match rest with
  | [] => if intPart.isEmpty then none else some ((digitsVal intPart : Nat) : Rat)
  | '.' :: rest2 =>
      let fracPart := rest2.takeWhile Char.isDigit
      let rest3 := rest2.dropWhile Char.isDigit
      if intPart.isEmpty && fracPart.isEmpty then none
      else parseExp (((digitsVal intPart : Nat) : Rat)
        + ((digitsVal fracPart : Nat) : Rat) / (10 : Rat) ^ fracPart.length) rest3
  | _ => if intPart.isEmpty then none else parseExp (((digitsVal intPart : Nat) : Rat)) rest

/-- Embeds the JS `Number(s)` conversion on an already-trimmed string, over the
decimal grammar: `""` is 0; optional sign; integer, fraction and exponent forms.
`"Infinity"` and every unparseable string yield `none`, the not-finite outcomes
that the source's `Number.isFinite` check rejects.  (Hex/octal/binary literals
are not modelled; they too would merely produce some finite number.) -/
def jsNumber (s : String) : Option Rat :=
  match s.data with
  | [] => some 0
  | '+' :: cs => if cs == "Infinity".data then none else parseDec cs
  | '-' :: cs => if cs == "Infinity".data then none
                 else (parseDec cs).map (fun q => -q)
  | cs => if cs == "Infinity".data then none else parseDec cs

/-- `Math.trunc` on a finite number: round toward zero. -/
def ratTrunc (q : Rat) : Int :=
  Int.tdiv q.num (q.den : Int)

/-- JS `String(v)` for a primitive value.  For a non-integer number the exact JS
double-to-string formatting is not modelled (the placeholder keeps numerator and
denominator); only the textual payload fields ever render numbers, and no claim
depends on their text. -/
def jsStringOf : JsPrim → String
  | .undefined => "undefined"
  | .null => "null"
  | .str s => s
  | .bool true => "true"
  | .bool false => "false"
  | .num q => if q.den = 1 then toString q.num
              else toString q.num ++ "/" ++ toString q.den

/-- JS `v ?? ""`: nullish coalescing to the empty string. -/
def nullishToEmptyStr (v : JsPrim) : JsPrim :=
  match v with
  | .null => .str ""
  | .undefined => .str ""
  | v => v

/-- Embeds `toNumberOrZero` (jobs.ts lines 54-57):
`Number(String(v ?? "").trim())` with a not-finite result replaced by 0.
Case by case on the primitive: nullish values give `Number("") = 0`; a string is
trimmed and parsed; a finite number round-trips through `String`/`Number` to
itself; a boolean renders as "true"/"false", which parse to NaN, hence 0. -/
def toNumberOrZero (v : JsPrim) : Rat :=
  match v with
  | .undefined => 0
  | .null => 0
  | .str s => (jsNumber (strTrim s)).getD 0
  | .num q => q
  | .bool _ => 0

/-- Embeds `toIntOrNull` (jobs.ts lines 46-52): `null`/`undefined` give `null`;
otherwise `String(v).trim()` — empty gives `null`, else `Number` it and return
`Math.trunc` of it when finite, `null` when not.  A finite number round-trips
through `String`/`Number`; a boolean renders as "true"/"false", parsing to NaN. -/
def toIntOrNull (v : JsPrim) : Option Int :=
  match v with
  | .null => none
  | .undefined => none
  | .str s =>
      let t := strTrim s
      if t = "" then none
      else (jsNumber t).map ratTrunc
  | .num q => some (ratTrunc q)
  | .bool _ => none

/-- Embeds `toDecimalStringOrNull` (jobs.ts lines 59-64): `null`/`undefined`
give `null`; otherwise the trimmed string rendering, `null` when empty. -/
def toDecimalStringOrNull (v : JsPrim) : Option String :=
  match v with
  | .null => none
  | .undefined => none
  | v =>
      let s := strTrim (jsStringOf v)
      if s = "" then none else some s

/-- JS truthiness of a primitive (`!!input.is_active`). -/
def jsTruthyPrim : JsPrim → Bool
  | .undefined => false
  | .null => false
  | .str s => !(s == "")
  | .num q => !(q == 0)
  | .bool b => b

/-- The `Partial<Job>` argument of `buildJobPayload`: each property either
absent/`undefined` (`none`) or a primitive value. -/
structure JobInput where
  client : Option JsPrim
  zone : Option JsPrim
  file_number : Option JsPrim
  quantity : Option JsPrim
  bl_awb : Option JsPrim
  weight_kg : Option JsPrim
  container_40ft : Option JsPrim
  container_20ft : Option JsPrim
  others : Option JsPrim
  description : Option JsPrim
  container_number : Option JsPrim
  transit_days : Option JsPrim
  duty_amount : Option JsPrim
  refund_amount : Option JsPrim
  is_active : Option JsPrim

/-- One conditional `if (input.k !== undefined) out.k = f(input.k)` entry of the
output record. -/
def optField (k : String) (o : Option JsPrim) (f : JsPrim → JsPrim) :
    List (String × JsPrim) :=
  match o with
  | some v => [(k, f v)]
  | none => []

/-- Embeds `buildJobPayload` (jobs.ts lines 70-101): the output record, as the
association list of the keys assigned in source order. -/
def buildJobPayload (i : JobInput) : List (String × JsPrim) :=
  optField "client" i.client id
  ++ optField "zone" i.zone id
  ++ optField "file_number" i.file_number (fun v => .str (strTrim (jsStringOf v)))
  ++ optField "quantity" i.quantity
      (fun v => .num ((max 0 (ratTrunc (toNumberOrZero v)) : Int) : Rat))
  ++ optField "bl_awb" i.bl_awb
      (fun v => .str (strTrim (jsStringOf (nullishToEmptyStr v))))
  ++ optField "weight_kg" i.weight_kg
      (fun v => (toDecimalStringOrNull v).elim JsPrim.null JsPrim.str)
  ++ optField "container_40ft" i.container_40ft
      (fun v => .num ((max 0 (ratTrunc (toNumberOrZero v)) : Int) : Rat))
  ++ optField "container_20ft" i.container_20ft
      (fun v => .num ((max 0 (ratTrunc (toNumberOrZero v)) : Int) : Rat))
  ++ optField "others" i.others
      (fun v => .str (strTrim (jsStringOf (nullishToEmptyStr v))))
  ++ optField "description" i.description
      (fun v => .str (strTrim (jsStringOf (nullishToEmptyStr v))))
  ++ optField "container_number" i.container_number
      (fun v => .str (strTrim (jsStringOf (nullishToEmptyStr v))))
  ++ optField "transit_days" i.transit_days
      (fun v => (toIntOrNull v).elim JsPrim.null (fun n => .num (n : Rat)))
  ++ optField "duty_amount" i.duty_amount
      (fun v => (toDecimalStringOrNull v).elim JsPrim.null JsPrim.str)
  ++ optField "refund_amount" i.refund_amount
      (fun v => (toDecimalStringOrNull v).elim JsPrim.null JsPrim.str)
  ++ optField "is_active" i.is_active (fun v => .bool (jsTruthyPrim v))

/-- Whether the input property corresponding to an output key is defined. -/
def fieldDefined (i : JobInput) (k : String) : Bool :=
  (k == "client") && i.client.isSome
  || (k == "zone") && i.zone.isSome
  || (k == "file_number") && i.file_number.isSome
  || (k == "quantity") && i.quantity.isSome
  || (k == "bl_awb") && i.bl_awb.isSome
  || (k == "weight_kg") && i.weight_kg.isSome
  || (k == "container_40ft") && i.container_40ft.isSome
  || (k == "container_20ft") && i.container_20ft.isSome
  || (k == "others") && i.others.isSome
  || (k == "description") && i.description.isSome
  || (k == "container_number") && i.container_number.isSome
  || (k == "transit_days") && i.transit_days.isSome
  || (k == "duty_amount") && i.duty_amount.isSome
  || (k == "refund_amount") && i.refund_amount.isSome
  || (k == "is_active") && i.is_active.isSome

theorem mem_optField (k k' : String) (v : JsPrim) (o : Option JsPrim)
    (f : JsPrim → JsPrim) (h : (k, v) ∈ optField k' o f) : k = k' ∧ o.isSome := by
  cases o with
  | none => simp [optField] at h
  | some w =>
      simp [optField] at h
      exact ⟨h.1, rfl⟩

theorem lookup_optField_ne (k k' : String) (o : Option JsPrim) (f : JsPrim → JsPrim)
    (rest : List (String × JsPrim)) (h : (k == k') = false) :
    List.lookup k (optField k' o f ++ rest) = List.lookup k rest := by
  cases o <;> simp [optField, List.lookup, h]

theorem lookup_optField_hit (k : String) (o : Option JsPrim) (f : JsPrim → JsPrim)
    (rest : List (String × JsPrim)) (v : JsPrim) (h : o = some v) :
    List.lookup k (optField k o f ++ rest) = some (f v) := by
  subst h
  simp [optField, List.lookup]

/-- C9: in `buildJobPayload`, a key appears in the output only if the
corresponding input field is defined; a defined `quantity`, `container_40ft` or
`container_20ft` comes out as `max 0 (trunc (toNumberOrZero v))` — a
non-negative truncated integer, with nullish, empty or non-numeric inputs
mapping to 0 — and a defined `transit_days` comes out as `toIntOrNull v` — an
integer or null, with empty, null or non-numeric inputs mapping to null. -/
theorem C9_buildJobPayload_fields (i : JobInput) :
    (∀ k v, (k, v) ∈ buildJobPayload i → fieldDefined i k = true)
    ∧ (∀ v, i.quantity = some v →
        List.lookup "quantity" (buildJobPayload i)
          = some (JsPrim.num ((max 0 (ratTrunc (toNumberOrZero v)) : Int) : Rat)))
    ∧ (∀ v, i.container_40ft = some v →
        List.lookup "container_40ft" (buildJobPayload i)
          = some (JsPrim.num ((max 0 (ratTrunc (toNumberOrZero v)) : Int) : Rat)))
    ∧ (∀ v, i.container_20ft = some v →
        List.lookup "container_20ft" (buildJobPayload i)
          = some (JsPrim.num ((max 0 (ratTrunc (toNumberOrZero v)) : Int) : Rat)))
    ∧ (∀ v, i.transit_days = some v →
        List.lookup "transit_days" (buildJobPayload i)
          = some ((toIntOrNull v).elim JsPrim.null (fun n => JsPrim.num (n : Rat))))
    ∧ (∀ v : JsPrim, 0 ≤ (max 0 (ratTrunc (toNumberOrZero v)) : Int))
    ∧ toNumberOrZero JsPrim.null = 0
    ∧ toNumberOrZero (JsPrim.str "") = 0
    ∧ (∀ s, jsNumber (strTrim s) = none → toNumberOrZero (JsPrim.str s) = 0)
    ∧ toIntOrNull JsPrim.null = none
    ∧ (∀ s, strTrim s = "" → toIntOrNull (JsPrim.str s) = none)
    ∧ (∀ s, jsNumber (strTrim s) = none → toIntOrNull (JsPrim.str s) = none) := by
  refine ⟨?_, ?_, ?_, ?_, ?_, ?_, rfl, rfl, ?_, rfl, ?_, ?_⟩
  · intro k v h
    unfold buildJobPayload at h
    simp only [List.append_assoc, List.mem_append] at h
    rcases h with h | h | h | h | h | h | h | h | h | h | h | h | h | h | h <;>
      · obtain ⟨rfl, hs⟩ := mem_optField _ _ _ _ _ h
        simp [fieldDefined, hs]
  · intro v hv
    unfold buildJobPayload
    simp only [List.append_assoc]
    rw [lookup_optField_ne "quantity" "client" i.client _ _ (by decide)]
    rw [lookup_optField_ne "quantity" "zone" i.zone _ _ (by decide)]
    rw [lookup_optField_ne "quantity" "file_number" i.file_number _ _ (by decide)]
    rw [lookup_optField_hit "quantity" i.quantity _ _ v hv]
  · intro v hv
    unfold buildJobPayload
    simp only [List.append_assoc]
    rw [lookup_optField_ne "container_40ft" "client" i.client _ _ (by decide)]
    rw [lookup_optField_ne "container_40ft" "zone" i.zone _ _ (by decide)]
    rw [lookup_optField_ne "container_40ft" "file_number" i.file_number _ _ (by decide)]
    rw [lookup_optField_ne "container_40ft" "quantity" i.quantity _ _ (by decide)]
    rw [lookup_optField_ne "container_40ft" "bl_awb" i.bl_awb _ _ (by decide)]
    rw [lookup_optField_ne "container_40ft" "weight_kg" i.weight_kg _ _ (by decide)]
    rw [lookup_optField_hit "container_40ft" i.container_40ft _ _ v hv]
  · intro v hv
    unfold buildJobPayload
    simp only [List.append_assoc]
    rw [lookup_optField_ne "container_20ft" "client" i.client _ _ (by decide)]
    rw [lookup_optField_ne "container_20ft" "zone" i.zone _ _ (by decide)]
    rw [lookup_optField_ne "container_20ft" "file_number" i.file_number _ _ (by decide)]
    rw [lookup_optField_ne "container_20ft" "quantity" i.quantity _ _ (by decide)]
    rw [lookup_optField_ne "container_20ft" "bl_awb" i.bl_awb _ _ (by decide)]
    rw [lookup_optField_ne "container_20ft" "weight_kg" i.weight_kg _ _ (by decide)]
    rw [lookup_optField_ne "container_20ft" "container_40ft" i.container_40ft _ _ (by decide)]
    rw [lookup_optField_hit "container_20ft" i.container_20ft _ _ v hv]
  · intro v hv
    unfold buildJobPayload
    simp only [List.append_assoc]
    rw [lookup_optField_ne "transit_days" "client" i.client _ _ (by decide)]
    rw [lookup_optField_ne "transit_days" "zone" i.zone _ _ (by decide)]
    rw [lookup_optField_ne "transit_days" "file_number" i.file_number _ _ (by decide)]
    rw [lookup_optField_ne "transit_days" "quantity" i.quantity _ _ (by decide)]
    rw [lookup_optField_ne "transit_days" "bl_awb" i.bl_awb _ _ (by decide)]
    rw [lookup_optField_ne "transit_days" "weight_kg" i.weight_kg _ _ (by decide)]
    rw [lookup_optField_ne "transit_days" "container_40ft" i.container_40ft _ _ (by decide)]
    rw [lookup_optField_ne "transit_days" "container_20ft" i.container_20ft _ _ (by decide)]
    rw [lookup_optField_ne "transit_days" "others" i.others _ _ (by decide)]
    rw [lookup_optField_ne "transit_days" "description" i.description _ _ (by decide)]
    rw [lookup_optField_ne "transit_days" "container_number" i.container_number _ _ (by decide)]
    rw [lookup_optField_hit "transit_days" i.transit_days _ _ v hv]
  · intro v
    exact le_max_left 0 _
  · intro s h
    simp [toNumberOrZero, h]
  · intro s h
    simp [toIntOrNull, h]
  · intro s h
    simp [toIntOrNull, h]

theorem C9_witness :
    List.lookup "quantity" (buildJobPayload
      ⟨none, none, none, some (JsPrim.str " 2.9 "), none, none, none, none, none, none,
        none, none, none, none, none⟩)
      = some (JsPrim.num
          ((max 0 (ratTrunc (toNumberOrZero (JsPrim.str " 2.9 "))) : Int) : Rat)) :=
  (C9_buildJobPayload_fields ⟨none, none, none, some (JsPrim.str " 2.9 "), none, none,
    none, none, none, none, none, none, none, none, none⟩).2.1 (JsPrim.str " 2.9 ") rfl
